import Mathlib

/-!
Shallow embedding of the notion-reading-tracker-helpers scripts.

The repository has three scripts:
* `update-icons.js` — paginated icon reconciliation (`updateBookIcons`),
* `update-total-pages.js` (source `src/unnamed/part_001`) — paginated
  page-count backfill (`updateBookTotalPages`),
* `import.js` (source `src/unnamed/part_000`) — ISBN import with
  `fetchBookInfo`, `processISBNFile`, `processGoodreadsCSV`, `parseCSVLine`.

External collaborators (the document database, the OpenLibrary lookup and
the patch/create endpoints) are modelled as deterministic oracles, and the
network interactions and pacing sleeps of a run are recorded in explicit
event traces.  JavaScript truthiness on the loosely-typed record fields is
modelled explicitly (`jsTruthyStr`, `jsTruthyNum`): an absent field, the
empty string, and the number 0 are all falsy in the source's guards.
-/

namespace ReadingTracker

/-- JS truthiness of an optional string field: `undefined`/`null` and the
empty string are falsy (`if (!status)`, `if (!isbn)` in the sources). -/
def jsTruthyStr : Option String → Bool
  | some s => !(s = "")
  | none => false

/-- JS truthiness of an optional numeric field: absent and `0` are falsy
(`if (currentTotalPages ...)`, `if (!numberOfPages)` in the sources). -/
def jsTruthyNum : Option Int → Bool
  | some n => !(n = 0)
  | none => false

/-- Model of the JS idiom `x || null` on an optional number: a missing or
zero (falsy) value becomes `null` (`bookData.number_of_pages || null`). -/
def jsNumOrNull : Option Int → Option Int
  | some n => if n = 0 then none else some n
  | none => none

/-- Whitespace as the source's string trim sees it (space, tab, newline,
carriage return). -/
def isWS (c : Char) : Bool :=
  c = ' ' || c = '\t' || c = '\n' || c = '\r'

/-- `s.trim()`: drop whitespace from both ends (character-level model,
kept kernel-computable). -/
def jsTrim (s : String) : String :=
  String.mk (((s.toList.dropWhile isWS).reverse.dropWhile isWS).reverse)

/-- Deletion of every occurrence of one character from a string — the
source's global single-character `replace(..., '')` idiom. -/
def removeAll (c : Char) (s : String) : String :=
  String.mk (s.toList.filter (fun x => !(x = c)))

/-- The identifier normalisation applied before every lookup: trim the
string, then delete every hyphen (the source's trim-and-replace idiom). -/
def cleanISBN (s : String) : String :=
  removeAll '-' (jsTrim s)

/-! ### Generic pagination (the shared `while (hasMore)` loop shape)

Both maintenance scripts run the same loop: fetch a page with the current
cursor, process its results, then set `hasMore := response.has_more` and
`cursor := response.next_cursor`.  The remote is modelled by the sequence
of responses it returns; the loop consumes them in order and records the
cursor used by each fetch call. -/

/-- One response of the paginated query: `results`, `has_more`,
`next_cursor`. -/
structure RemotePage (α : Type) where
  results : List α
  has_more : Bool
  next_cursor : Option String
deriving DecidableEq, Repr

/-- The `while (hasMore)` loop.  Returns the final processing state and
the list of cursors passed to the query call, one entry per fetch, in
order.  The first fetch always happens (the loop starts with
`hasMore = true`) and uses no cursor. -/
def paginateLoop {α σ : Type} (process : List α → σ → σ) :
    List (RemotePage α) → Option String → σ → σ × List (Option String)
  | [], _, st => (st, [])
  | p :: rest, cur, st =>
    let st' := process p.results st
    if p.has_more then
      let out := paginateLoop process rest p.next_cursor st'
      (out.1, cur :: out.2)
    else
      (st', [cur])

/-- The response sequence of a terminating run: at least one page, every
page before the last reports `has_more = true`, and the last page reports
`has_more = false`. -/
def properPages {α : Type} : List (RemotePage α) → Bool
  | [] => false
  | [p] => !p.has_more
  | p :: rest => p.has_more && properPages rest

/-! ### `update-icons.js` -/

/-- A record's icon descriptor (`page.icon`): an emoji icon with its
glyph, or some other icon kind (e.g. an external file). -/
inductive NotionIcon
  | emoji (glyph : String)
  | otherKind
deriving DecidableEq, Repr

/-- The fields of a remote record that `updateBookIcons` reads: the
record id, the optional `Status` name, the optional title, and the
optional icon. -/
structure IconPageRec where
  id : Nat
  title : Option String
  status : Option String
  icon : Option NotionIcon
deriving DecidableEq, Repr

/-- The fixed status-to-glyph table `EMOJIS` of `update-icons.js`. -/
def EMOJIS (status : String) : Option String :=
  if status = "Currently Reading" then some "📖"
  else if status = "To Read" then some "📘"
  else if status = "Completed" then some "📗"
  else if status = "DNF" then some "📕"
  else none

/-- `EMOJIS[status] || '📚'`. -/
def expectedEmoji (status : String) : String :=
  (EMOJIS status).getD "📚"

/-- `page.icon?.type === 'emoji' ? page.icon.emoji : null`. -/
def currentEmoji (r : IconPageRec) : Option String :=
  match r.icon with
  | some (NotionIcon.emoji g) => some g
  | _ => none

/-- The per-record decision of the icon sync (lines 42-50 of
`update-icons.js`): skip when the current emoji already equals the
expected one, otherwise update the icon. -/
inductive IconDecision
  | skip
  | update (glyph : String)
deriving DecidableEq, Repr

/-- `decideIcon` — the decision the icon loop takes for a record whose
(truthy) status is `status`: compare the current emoji with
`EMOJIS[status] || '📚'` by value. -/
def decideIcon (status : String) (r : IconPageRec) : IconDecision :=
  if currentEmoji r = some (expectedEmoji status) then IconDecision.skip
  else IconDecision.update (expectedEmoji status)

/-- Network / pacing events of the icon loop: an icon-only patch request
(`notion.pages.update` with only the `icon` field), and a sleep. -/
inductive IconEvent
  | patchIcon (id : Nat) (glyph : String)
  | sleep (ms : Nat)
deriving DecidableEq, Repr

/-- Classification of one record's processing in the icon loop.  The
script increments a counter only for `updated` and `skipped`; a record
without a truthy status (`noStatus`) and a record whose patch request
threw (`patchFailed`) increment nothing. -/
inductive IconOutcome
  | noStatus
  | skipped
  | updated
  | patchFailed
deriving DecidableEq, Repr

/-- The two counters `updateBookIcons` maintains. -/
structure IconCounts where
  totalUpdated : Nat
  totalSkipped : Nat
deriving DecidableEq, Repr

/-- Counter update per outcome: only `updated` and `skipped` are counted;
the other outcomes leave both counters unchanged (the source has no
counter for them). -/
def applyIconOutcome : IconOutcome → IconCounts → IconCounts
  | IconOutcome.updated, c => ⟨c.totalUpdated + 1, c.totalSkipped⟩
  | IconOutcome.skipped, c => ⟨c.totalUpdated, c.totalSkipped + 1⟩
  | _, c => c

/-- One record of the icon loop body (lines 33-69 of `update-icons.js`).
`patchOk id` tells whether the patch request for record `id` succeeds or
throws (the throw is caught by the inner `try`).  A record without a
truthy status is passed over with no request; a skip issues no request;
an update issues the icon-only patch and then sleeps 250ms (the sleep
runs on both the success and the caught-exception path). -/
def iconStep (patchOk : Nat → Bool) (r : IconPageRec) :
    IconOutcome × List IconEvent :=
  match r.status with
  | none => (IconOutcome.noStatus, [])
  | some s =>
    if s = "" then (IconOutcome.noStatus, [])
    else
      match decideIcon s r with
      | IconDecision.skip => (IconOutcome.skipped, [])
      | IconDecision.update g =>
        if patchOk r.id then
          (IconOutcome.updated, [IconEvent.patchIcon r.id g, IconEvent.sleep 250])
        else
          (IconOutcome.patchFailed, [IconEvent.patchIcon r.id g, IconEvent.sleep 250])

/-- Processing of one page of results, record by record in order. -/
def processIconList (patchOk : Nat → Bool) :
    List IconPageRec → IconCounts × List IconEvent
  | [] => (⟨0, 0⟩, [])
  | r :: rs =>
    let step := iconStep patchOk r
    let rest := processIconList patchOk rs
    (applyIconOutcome step.1 rest.1, step.2 ++ rest.2)

/-- The paginated `updateBookIcons` run over the response sequence
`pages`: counters and event trace, plus the cursors used by the fetch
calls. -/
def updateBookIcons (patchOk : Nat → Bool)
    (pages : List (RemotePage IconPageRec)) :
    (IconCounts × List IconEvent) × List (Option String) :=
  paginateLoop
    (fun rs st =>
      let page := processIconList patchOk rs
      (⟨st.1.totalUpdated + page.1.totalUpdated,
        st.1.totalSkipped + page.1.totalSkipped⟩, st.2 ++ page.2))
    pages none (⟨0, 0⟩, [])

/-! ### `update-total-pages.js` (source `src/unnamed/part_001`) -/

/-- The fields of a remote record that `updateBookTotalPages` reads. -/
structure BookRec where
  id : Nat
  title : Option String
  isbn : Option String
  totalPages : Option Int
deriving DecidableEq, Repr

/-- Outcome of `fetchBookDataFromOpenLibrary`: the promise rejects
(network or JSON-parse error), resolves `null` (no entry for the key), or
resolves book data with an optional `number_of_pages`. -/
inductive OLResult
  | fetchError
  | noData
  | found (number_of_pages : Option Int)
deriving DecidableEq, Repr

/-- Network / pacing events of the page-count backfill. -/
inductive TPEvent
  | fetchOL (isbn : String)
  | patchPages (id : Nat) (n : Int)
  | sleep (ms : Nat)
deriving DecidableEq, Repr

/-- Classification of one record's processing in the backfill; each
record gets exactly one outcome and each outcome increments exactly one
of the five counters. -/
inductive TPOutcome
  | missingISBN
  | skipped
  | failedFetch
  | updated
  | forceUpdated
deriving DecidableEq, Repr

/-- The five counters of `updateBookTotalPages`. -/
structure TPCounters where
  totalUpdated : Nat
  totalForceUpdated : Nat
  totalSkipped : Nat
  totalMissingISBN : Nat
  totalFailedFetch : Nat
deriving DecidableEq, Repr

def applyTPOutcome : TPOutcome → TPCounters → TPCounters
  | TPOutcome.missingISBN, c => { c with totalMissingISBN := c.totalMissingISBN + 1 }
  | TPOutcome.skipped, c => { c with totalSkipped := c.totalSkipped + 1 }
  | TPOutcome.failedFetch, c => { c with totalFailedFetch := c.totalFailedFetch + 1 }
  | TPOutcome.updated, c => { c with totalUpdated := c.totalUpdated + 1 }
  | TPOutcome.forceUpdated, c => { c with totalForceUpdated := c.totalForceUpdated + 1 }

/-- One record of the backfill loop body (lines 69-133 of the source).
Returns the record as left in the database, the outcome, and the events.
Mirrors the source's control flow exactly:
* no truthy ISBN → `totalMissingISBN`, `continue` before any request;
* truthy page count and no `--force` → `totalSkipped`, `continue`;
* otherwise fetch from OpenLibrary:
  a rejected fetch is caught (`totalFailedFetch`) and still reaches the
  500ms sleep; a `null` result or a falsy `number_of_pages` hits a
  `continue` *inside* the `try`, skipping the sleep; a truthy page count
  issues the patch, whose own failure is caught as `totalFailedFetch`;
  the counter on success is `totalForceUpdated` exactly when the record
  already had a truthy page count and `--force` is set. -/
def tpStep (force : Bool) (fetchOL : String → OLResult) (patchOk : Nat → Bool)
    (r : BookRec) : BookRec × TPOutcome × List TPEvent :=
  match r.isbn with
  | none => (r, TPOutcome.missingISBN, [])
  | some isbn =>
    if isbn = "" then (r, TPOutcome.missingISBN, [])
    else if jsTruthyNum r.totalPages && !force then
      (r, TPOutcome.skipped, [])
    else
      match fetchOL isbn with
      | OLResult.fetchError =>
        (r, TPOutcome.failedFetch, [TPEvent.fetchOL isbn, TPEvent.sleep 500])
      | OLResult.noData =>
        (r, TPOutcome.failedFetch, [TPEvent.fetchOL isbn])
      | OLResult.found np =>
        match np with
        | none => (r, TPOutcome.failedFetch, [TPEvent.fetchOL isbn])
        | some n =>
          if n = 0 then (r, TPOutcome.failedFetch, [TPEvent.fetchOL isbn])
          else if patchOk r.id then
            ({ r with totalPages := some n },
             if jsTruthyNum r.totalPages && force then TPOutcome.forceUpdated
             else TPOutcome.updated,
             [TPEvent.fetchOL isbn, TPEvent.patchPages r.id n, TPEvent.sleep 500])
          else
            (r, TPOutcome.failedFetch,
             [TPEvent.fetchOL isbn, TPEvent.patchPages r.id n, TPEvent.sleep 500])

/-- Processing of a list of records in order: the records as left in the
database, the counters, and the event trace. -/
def processTPList (force : Bool) (fetchOL : String → OLResult)
    (patchOk : Nat → Bool) :
    List BookRec → List BookRec × TPCounters × List TPEvent
  | [] => ([], ⟨0, 0, 0, 0, 0⟩, [])
  | r :: rs =>
    let step := tpStep force fetchOL patchOk r
    let rest := processTPList force fetchOL patchOk rs
    (step.1 :: rest.1, applyTPOutcome step.2.1 rest.2.1, step.2.2 ++ rest.2.2)

/-- Pointwise sum of backfill counters (page totals accumulate across the
pagination). -/
def addTPCounters (a b : TPCounters) : TPCounters :=
  ⟨a.totalUpdated + b.totalUpdated,
   a.totalForceUpdated + b.totalForceUpdated,
   a.totalSkipped + b.totalSkipped,
   a.totalMissingISBN + b.totalMissingISBN,
   a.totalFailedFetch + b.totalFailedFetch⟩

/-- The paginated `updateBookTotalPages` run over the response sequence
`pages`. -/
def updateBookTotalPages (force : Bool) (fetchOL : String → OLResult)
    (patchOk : Nat → Bool) (pages : List (RemotePage BookRec)) :
    (List BookRec × TPCounters × List TPEvent) × List (Option String) :=
  paginateLoop
    (fun rs st =>
      let page := processTPList force fetchOL patchOk rs
      (st.1 ++ page.1, addTPCounters st.2.1 page.2.1, st.2.2 ++ page.2.2))
    pages none ([], ⟨0, 0, 0, 0, 0⟩, [])

/-! ### `import.js` (source `src/unnamed/part_000`) -/

/-- `parseCSVLine`, character level: scan left to right, toggle the
in-quotes flag on every `"`, split on `,` only while outside quotes,
append any other character to the current field, and push the final
field at the end of the line. -/
def csvScan : List Char → List Char → Bool → List (List Char)
  | [], cur, _ => [cur]
  | c :: rest, cur, inQuotes =>
    if c = '"' then csvScan rest cur (!inQuotes)
    else if c = ',' then
      if inQuotes then csvScan rest (cur ++ [c]) inQuotes
      else cur :: csvScan rest [] inQuotes
    else csvScan rest (cur ++ [c]) inQuotes

/-- `parseCSVLine(line)` from the source (lines 374-399). -/
def parseCSVLine (line : String) : List String :=
  (csvScan line.toList [] false).map (fun cs => String.mk cs)

/-- The raw book data of a well-formed OpenLibrary response entry:
optional `title`, optional `authors` array, optional `number_of_pages`. -/
structure OLBookData where
  title : Option String
  authors : Option (List String)
  number_of_pages : Option Int
deriving DecidableEq, Repr

/-- Outcome of the lookup request inside `fetchBookInfo`: the transport
or JSON step throws, the parsed object has no entry for the queried key
(so `bookData.title` raises and is caught), or an entry is found. -/
inductive LookupOutcome
  | transportError
  | missingKey
  | found (d : OLBookData)
deriving DecidableEq, Repr

/-- The object `fetchBookInfo` returns on success. -/
structure BookInfo where
  title : Option String
  authors : List String
  numberOfPages : Option Int
  isbn : String
deriving DecidableEq, Repr

/-- `fetchBookInfo(isbn)` (lines 137-155 of the source): on a found entry
it returns the book object with `authors` defaulted to `[]` and
`numberOfPages` defaulted to `null`; on a transport error or a missing
key the exception is caught, the identifier is pushed onto the
process-wide `failedIsbns` accumulator (the second component: the
identifiers appended by this call) and `null` is returned. -/
def fetchBookInfo (oracle : String → LookupOutcome) (isbn : String) :
    Option BookInfo × List String :=
  match oracle isbn with
  | LookupOutcome.transportError => (none, [isbn])
  | LookupOutcome.missingKey => (none, [isbn])
  | LookupOutcome.found d =>
    (some ⟨d.title, d.authors.getD [], jsNumOrNull d.number_of_pages, isbn⟩, [])

/-- Network / pacing events of the import script: a lookup request, a
`notion.pages.create` call, and a sleep. -/
inductive ImpEvent
  | lookup (isbn : String)
  | createPage (title : Option String)
  | sleep (ms : Nat)
deriving DecidableEq, Repr

/-- The lookup identifiers of an event trace, in order. -/
def lookupsOf (evs : List ImpEvent) : List String :=
  evs.filterMap (fun e =>
    match e with
    | ImpEvent.lookup s => some s
    | _ => none)

/-- One iteration of the `processISBNFile` loop (lines 208-223): clean
the identifier, look it up, create the record on success, and always
sleep 1000ms at the end of the iteration.  Returns the events and the
failed-identifier appends. -/
def processISBNItem (oracle : String → LookupOutcome) (raw : String) :
    List ImpEvent × List String :=
  let c := cleanISBN raw
  match fetchBookInfo oracle c with
  | (some info, fs) =>
    ([ImpEvent.lookup c, ImpEvent.createPage info.title, ImpEvent.sleep 1000], fs)
  | (none, fs) => ([ImpEvent.lookup c, ImpEvent.sleep 1000], fs)

/-- `processISBNFile` on the file content already split at newlines:
every line whose trim is nonempty is one identifier, processed in
order. -/
def processISBNFile (oracle : String → LookupOutcome) (fileLines : List String) :
    List ImpEvent × List String :=
  (fileLines.filter (fun l => !(jsTrim l = ""))).foldr
    (fun raw acc =>
      let item := processISBNItem oracle raw
      (item.1 ++ acc.1, item.2 ++ acc.2))
    ([], [])

/-- A row of the Goodreads export as staged for processing: the title and
the optionally-present ISBN / ISBN13 cell values. -/
structure GRBook where
  title : String
  isbn : Option String
  isbn13 : Option String
deriving DecidableEq, Repr

/-- `values[i].replace(/[="]/g, '').trim()` — the cell cleanup applied to
the ISBN columns of a Goodreads row. -/
def cleanCell (s : String) : String :=
  jsTrim (removeAll '"' (removeAll '=' s))

/-- `s.replace(/^"|"$/g, '')` then `.trim()` — the title cell cleanup:
drop one leading and one trailing quote character, then trim. -/
def stripEdgeQuotes (s : String) : String :=
  let l := s.toList
  let l1 := match l with
    | '"' :: rest => rest
    | _ => l
  let l2 := match l1.reverse with
    | '"' :: rest => rest.reverse
    | _ => l1
  jsTrim (String.mk l2)

/-- `headers.indexOf(name) !== -1 && values[i]` — fetch the cell at a
column index when the column exists and the cell is truthy. -/
def getCell (values : List String) : Option Nat → Option String
  | none => none
  | some i =>
    match values[i]? with
    | some v => if v = "" then none else some v
    | none => none

/-- Extraction of one ISBN column value from a row (lines 297-305):
clean the truthy cell and drop it if the cleaned value is empty. -/
def extractId (values : List String) (idx : Option Nat) : Option String :=
  match getCell values idx with
  | some v =>
    let c := cleanCell v
    if c = "" then none else some c
  | none => none

/-- The title of a row (lines 307-309), defaulting to `Unknown Title`. -/
def rowTitle (values : List String) (titleIdx : Option Nat) : String :=
  match getCell values titleIdx with
  | some v => stripEdgeQuotes v
  | none => "Unknown Title"

/-- Staging of one data row (lines 292-321): the row joins
`booksToProcess` iff at least one of the two identifier columns yields a
value. -/
def rowToBook (isbnIdx isbn13Idx titleIdx : Option Nat) (values : List String) :
    Option GRBook :=
  let isbn := extractId values isbnIdx
  let isbn13 := extractId values isbn13Idx
  if isbn13.isSome || isbn.isSome then
    some ⟨rowTitle values titleIdx, isbn, isbn13⟩
  else none

/-- Stage 1 of `processGoodreadsCSV` (lines 286-321): over the data
lines, skip blank lines, parse each line and stage the rows that carry an
identifier. -/
def collectBooks (isbnIdx isbn13Idx titleIdx : Option Nat) :
    List String → List GRBook
  | [] => []
  | l :: ls =>
    if jsTrim l = "" then collectBooks isbnIdx isbn13Idx titleIdx ls
    else
      match rowToBook isbnIdx isbn13Idx titleIdx (parseCSVLine l) with
      | some b => b :: collectBooks isbnIdx isbn13Idx titleIdx ls
      | none => collectBooks isbnIdx isbn13Idx titleIdx ls

/-- Result of processing one staged Goodreads book. -/
structure GRResult where
  info : Option BookInfo
  failures : List String
  events : List ImpEvent
deriving DecidableEq, Repr

/-- Stage 2 of `processGoodreadsCSV`, one book (lines 327-358): try the
cleaned ISBN13 first when present; fall back to the cleaned ISBN only
when that lookup failed or ISBN13 is absent; create the record on
success; when the final result is `null`, push the stored ISBN13 when
present, else the stored ISBN (`fetchBookInfo` itself already pushed each
failed lookup's cleaned identifier); always sleep 1000ms at the end. -/
def processGRBook (oracle : String → LookupOutcome) (b : GRBook) : GRResult :=
  match b.isbn13 with
  | some s13 =>
    let c13 := cleanISBN s13
    match fetchBookInfo oracle c13 with
    | (some info, f1) =>
      ⟨some info, f1,
       [ImpEvent.lookup c13, ImpEvent.createPage info.title, ImpEvent.sleep 1000]⟩
    | (none, f1) =>
      match b.isbn with
      | some si =>
        let ci := cleanISBN si
        match fetchBookInfo oracle ci with
        | (some info, f2) =>
          ⟨some info, f1 ++ f2,
           [ImpEvent.lookup c13, ImpEvent.lookup ci,
            ImpEvent.createPage info.title, ImpEvent.sleep 1000]⟩
        | (none, f2) =>
          ⟨none, f1 ++ f2 ++ [s13],
           [ImpEvent.lookup c13, ImpEvent.lookup ci, ImpEvent.sleep 1000]⟩
      | none =>
        ⟨none, f1 ++ [s13], [ImpEvent.lookup c13, ImpEvent.sleep 1000]⟩
  | none =>
    match b.isbn with
    | some si =>
      let ci := cleanISBN si
      match fetchBookInfo oracle ci with
      | (some info, f2) =>
        ⟨some info, f2,
         [ImpEvent.lookup ci, ImpEvent.createPage info.title, ImpEvent.sleep 1000]⟩
      | (none, f2) =>
        ⟨none, f2 ++ [si], [ImpEvent.lookup ci, ImpEvent.sleep 1000]⟩
    | none => ⟨none, [], [ImpEvent.sleep 1000]⟩

/-- Stage 2 over the staged book list: successes, failure-log appends,
events, in order. -/
def processBooks (oracle : String → LookupOutcome) :
    List GRBook → List BookInfo × List String × List ImpEvent
  | [] => ([], [], [])
  | b :: bs =>
    let r := processGRBook oracle b
    let rest := processBooks oracle bs
    ((match r.info with
      | some i => i :: rest.1
      | none => rest.1),
     r.failures ++ rest.2.1, r.events ++ rest.2.2)

/-- `processGoodreadsCSV` on the data lines (header already resolved to
the column indexes). -/
def processGoodreadsCSV (oracle : String → LookupOutcome)
    (isbnIdx isbn13Idx titleIdx : Option Nat) (dataLines : List String) :
    List BookInfo × List String × List ImpEvent :=
  processBooks oracle (collectBooks isbnIdx isbn13Idx titleIdx dataLines)

/-! ### Spec-side definitions -/

/-- The glyph the specification's icon table assigns to a status: the
four named statuses, and the fallback glyph for any other status.
Rendered from the spec's words, to be compared with the code's
`expectedEmoji`. -/
def specIconGlyph (status : String) : String :=
  if status = "Currently Reading" then "📖"
  else if status = "To Read" then "📘"
  else if status = "Completed" then "📗"
  else if status = "DNF" then "📕"
  else "📚"

/-! ### Supporting lemmas -/

theorem expectedEmoji_eq_spec (s : String) : expectedEmoji s = specIconGlyph s := by
  unfold expectedEmoji EMOJIS specIconGlyph
  split_ifs <;> rfl

theorem csvScan_ne_nil (l cur : List Char) (inQuotes : Bool) :
    csvScan l cur inQuotes ≠ [] := by
  induction l generalizing cur inQuotes with
  | nil => simp [csvScan]
  | cons c rest ih =>
    by_cases hq : c = '"'
    · simpa [csvScan, hq] using ih cur (!inQuotes)
    · by_cases hc : c = ','
      · cases inQuotes with
        | true => simpa [csvScan, hq, hc] using ih (cur ++ [c]) true
        | false => simp [csvScan, hq, hc]
      · simpa [csvScan, hq, hc] using ih (cur ++ [c]) inQuotes

theorem csvScan_no_quote (l : List Char) (h : '"' ∉ l) :
    ∀ cur : List Char,
      csvScan l cur false = (l.splitOn ',').modifyHead (fun f => cur ++ f) := by
  induction l with
  | nil =>
    intro cur
    simp [csvScan, List.splitOn_nil]
  | cons c rest ih =>
    intro cur
    have hq : c ≠ '"' := fun hc => h (hc ▸ List.mem_cons_self c rest)
    have hrest : '"' ∉ rest := fun hm => h (List.mem_cons_of_mem c hm)
    by_cases hc : c = ','
    · subst hc
      have hsplit : (',' :: rest).splitOn ',' = [] :: rest.splitOn ',' := by
        simp [List.splitOn, List.splitOnP_cons]
      rw [hsplit]
      have hne : rest.splitOn ',' ≠ [] := List.splitOnP_ne_nil _ rest
      calc csvScan (',' :: rest) cur false
          = cur :: csvScan rest [] false := by simp [csvScan, hq]
        _ = cur :: (rest.splitOn ',').modifyHead (fun f => [] ++ f) := by rw [ih hrest]
        _ = cur :: rest.splitOn ',' := by
            cases hsp : rest.splitOn ',' with
            | nil => exact absurd hsp hne
            | cons a as => simp
        _ = ((cur ++ []) :: rest.splitOn ',') := by simp
        _ = ([] :: rest.splitOn ',').modifyHead (fun f => cur ++ f) := by simp
    · have hsplit : (c :: rest).splitOn ',' = (rest.splitOn ',').modifyHead (c :: ·) := by
        simp [List.splitOn, List.splitOnP_cons, hc]
      rw [hsplit]
      have hstep : csvScan (c :: rest) cur false = csvScan rest (cur ++ [c]) false := by
        simp [csvScan, hq, hc]
      rw [hstep, ih hrest]
      cases hsp : rest.splitOn ',' with
      | nil => exact absurd hsp (List.splitOnP_ne_nil _ rest)
      | cons a as => simp [List.modifyHead, List.append_assoc]

/-! ### Claims -/

/-- C1.  For every record whose status field is present (truthy), the
icon-sync decision is Skip iff the record's current icon glyph equals the
fixed table's glyph for that status — one of the four named statuses, or
the fallback glyph for a status outside the table (`specIconGlyph` spells
the table out from the spec).  Otherwise the decision is an update
carrying exactly that glyph, and the loop then issues a single icon-only
patch request (`IconEvent.patchIcon`, which by construction carries no
field other than the icon) for that record; on a skip no request is
issued. -/
theorem c1_decideIcon_skip_iff (r : IconPageRec) (s : String)
    (hs : r.status = some s) (hne : s ≠ "") :
    (decideIcon s r = IconDecision.skip ↔
      currentEmoji r = some (specIconGlyph s)) ∧
    (decideIcon s r ≠ IconDecision.skip →
      decideIcon s r = IconDecision.update (specIconGlyph s) ∧
      ∀ patchOk : Nat → Bool,
        (iconStep patchOk r).2 =
          [IconEvent.patchIcon r.id (specIconGlyph s), IconEvent.sleep 250]) ∧
    (decideIcon s r = IconDecision.skip →
      ∀ patchOk : Nat → Bool, (iconStep patchOk r).2 = []) := by
  have hglyph := expectedEmoji_eq_spec s
  refine ⟨?_, ?_, ?_⟩
  · unfold decideIcon
    rw [hglyph]
    by_cases hcur : currentEmoji r = some (specIconGlyph s) <;> simp [hcur]
  · intro hns
    unfold decideIcon at hns ⊢
    rw [hglyph] at hns ⊢
    by_cases hcur : currentEmoji r = some (specIconGlyph s)
    · simp [hcur] at hns
    · refine ⟨by simp [hcur], ?_⟩
      intro patchOk
      unfold iconStep
      rw [hs]
      simp only [hne, if_false]
      unfold decideIcon
      rw [hglyph]
      by_cases hp : patchOk r.id <;> simp [hcur, hp]
  · intro hsk patchOk
    unfold decideIcon at hsk
    rw [hglyph] at hsk
    by_cases hcur : currentEmoji r = some (specIconGlyph s)
    · unfold iconStep
      rw [hs]
      simp only [hne, if_false]
      unfold decideIcon
      rw [hglyph]
      simp [hcur]
    · simp [hcur] at hsk

/-- Witness for C1 at a concrete record: status `To Read`, current icon
`📗`, so the decision is an update to `📘`. -/
theorem c1_witness :
    ((⟨3, some "B", some "To Read", some (NotionIcon.emoji "📗")⟩ : IconPageRec).status
        = some "To Read" ∧ "To Read" ≠ "") ∧
    ((decideIcon "To Read"
        ⟨3, some "B", some "To Read", some (NotionIcon.emoji "📗")⟩ = IconDecision.skip ↔
      currentEmoji ⟨3, some "B", some "To Read", some (NotionIcon.emoji "📗")⟩
        = some (specIconGlyph "To Read")) ∧
    (decideIcon "To Read"
        ⟨3, some "B", some "To Read", some (NotionIcon.emoji "📗")⟩ ≠ IconDecision.skip →
      decideIcon "To Read"
        ⟨3, some "B", some "To Read", some (NotionIcon.emoji "📗")⟩
          = IconDecision.update (specIconGlyph "To Read") ∧
      ∀ patchOk : Nat → Bool,
        (iconStep patchOk
            ⟨3, some "B", some "To Read", some (NotionIcon.emoji "📗")⟩).2 =
          [IconEvent.patchIcon 3 (specIconGlyph "To Read"), IconEvent.sleep 250]) ∧
    (decideIcon "To Read"
        ⟨3, some "B", some "To Read", some (NotionIcon.emoji "📗")⟩ = IconDecision.skip →
      ∀ patchOk : Nat → Bool,
        (iconStep patchOk
            ⟨3, some "B", some "To Read", some (NotionIcon.emoji "📗")⟩).2 = [])) :=
  ⟨⟨rfl, by decide⟩,
   c1_decideIcon_skip_iff
     ⟨3, some "B", some "To Read", some (NotionIcon.emoji "📗")⟩ "To Read" rfl (by decide)⟩

/-- C9.  `parseCSVLine` on the two spec examples; in general, on a line
with no quote character it splits exactly at the commas (compared against
the independent `List.splitOn`), and it always emits the trailing field —
the result is never empty, even when the line does not end with a
delimiter. -/
theorem c9_parseCSVLine :
    parseCSVLine "a,\"b,c\",d" = ["a", "b,c", "d"] ∧
    parseCSVLine "x,y," = ["x", "y", ""] ∧
    (∀ l : List Char, '"' ∉ l → csvScan l [] false = l.splitOn ',') ∧
    (∀ line : String, parseCSVLine line ≠ []) := by
  refine ⟨by decide, by decide, ?_, ?_⟩
  · intro l h
    rw [csvScan_no_quote l h []]
    cases hsp : l.splitOn ',' with
    | nil => exact absurd hsp (List.splitOnP_ne_nil _ l)
    | cons a as => simp
  · intro line
    unfold parseCSVLine
    simp only [ne_eq, List.map_eq_nil_iff]
    exact csvScan_ne_nil line.toList [] false

/-- Witness for C9: the quote-free split conjunct applied at the concrete
line `x,y` and the nonemptiness conjunct at `q`. -/
theorem c9_witness :
    ('"' ∉ ("x,y".toList) ∧ csvScan "x,y".toList [] false = ("x,y".toList).splitOn ',') ∧
    parseCSVLine "q" ≠ [] :=
  ⟨⟨by decide, c9_parseCSVLine.2.2.1 "x,y".toList (by decide)⟩,
   c9_parseCSVLine.2.2.2 "q"⟩

/-- C10.  In the icon-sync loop a record whose status is absent (or the
falsy empty string) is passed over with no network request and no change
to either counter, so the final `updated` and `skipped` counts can total
fewer than the number of records processed: a concrete one-record run
ends with `updated + skipped = 0` while one record was processed. -/
theorem c10_no_status_skipped_uncounted :
    (∀ (patchOk : Nat → Bool) (r : IconPageRec),
        jsTruthyStr r.status = false →
        iconStep patchOk r = (IconOutcome.noStatus, []) ∧
        ∀ c : IconCounts, applyIconOutcome IconOutcome.noStatus c = c) ∧
    ((updateBookIcons (fun _ => true)
        [⟨[⟨7, some "T", none, none⟩], false, none⟩]).1.1.totalUpdated +
      (updateBookIcons (fun _ => true)
        [⟨[⟨7, some "T", none, none⟩], false, none⟩]).1.1.totalSkipped = 0 ∧
      ([(⟨[⟨7, some "T", none, none⟩], false, none⟩ : RemotePage IconPageRec)].map
          (fun p => p.results.length)).sum = 1) := by
  refine ⟨?_, by decide, by decide⟩
  intro patchOk r h
  refine ⟨?_, fun c => rfl⟩
  unfold iconStep
  cases hs : r.status with
  | none => rfl
  | some s =>
    rw [hs] at h
    simp [jsTruthyStr] at h
    simp [h]

/-- Witness for C10 at a concrete status-less record. -/
theorem c10_witness :
    jsTruthyStr (⟨7, some "T", none, none⟩ : IconPageRec).status = false ∧
    (iconStep (fun _ => true) ⟨7, some "T", none, none⟩ = (IconOutcome.noStatus, []) ∧
      ∀ c : IconCounts, applyIconOutcome IconOutcome.noStatus c = c) :=
  ⟨by decide,
   c10_no_status_skipped_uncounted.1 (fun _ => true) ⟨7, some "T", none, none⟩ (by decide)⟩

theorem properPages_ne_nil {α : Type} {pages : List (RemotePage α)}
    (h : properPages pages = true) : pages ≠ [] := by
  intro hnil
  rw [hnil] at h
  simp [properPages] at h

theorem paginateLoop_cons_true {α σ : Type} (process : List α → σ → σ)
    (p : RemotePage α) (rest : List (RemotePage α)) (cur : Option String) (st : σ)
    (hp : p.has_more = true) :
    paginateLoop process (p :: rest) cur st =
      ((paginateLoop process rest p.next_cursor (process p.results st)).1,
       cur :: (paginateLoop process rest p.next_cursor (process p.results st)).2) := by
  simp [paginateLoop, hp]

theorem paginateLoop_cons_false {α σ : Type} (process : List α → σ → σ)
    (p : RemotePage α) (rest : List (RemotePage α)) (cur : Option String) (st : σ)
    (hp : p.has_more = false) :
    paginateLoop process (p :: rest) cur st = (process p.results st, [cur]) := by
  simp [paginateLoop, hp]

theorem paginateLoop_cursors {α σ : Type} (process : List α → σ → σ)
    (pages : List (RemotePage α)) (h : properPages pages = true) :
    ∀ (cur : Option String) (st : σ),
      (paginateLoop process pages cur st).2 =
        cur :: pages.dropLast.map (fun p => p.next_cursor) := by
  induction pages with
  | nil => simp [properPages] at h
  | cons p rest ih =>
    intro cur st
    cases rest with
    | nil =>
      have hp : p.has_more = false := by simpa [properPages] using h
      rw [paginateLoop_cons_false process p [] cur st hp]
      simp
    | cons q rs =>
      have hp : p.has_more = true ∧ properPages (q :: rs) = true := by
        simpa [properPages] using h
      rw [paginateLoop_cons_true process p (q :: rs) cur st hp.1]
      rw [show ((paginateLoop process (q :: rs) p.next_cursor (process p.results st)).1,
        cur :: (paginateLoop process (q :: rs) p.next_cursor (process p.results st)).2).2 =
        cur :: (paginateLoop process (q :: rs) p.next_cursor (process p.results st)).2 from rfl]
      rw [ih hp.2 p.next_cursor (process p.results st)]
      simp

/-- The pagination trace of a run is a function of the pages' pagination
fields alone: two runs with different page processing (even of different
state types) issue exactly the same fetch sequence. -/
theorem paginateLoop_cursors_congr {α σ σ' : Type}
    (f : List α → σ → σ) (g : List α → σ' → σ') :
    ∀ (pages : List (RemotePage α)) (cur : Option String) (st : σ) (st' : σ'),
      (paginateLoop f pages cur st).2 = (paginateLoop g pages cur st').2 := by
  intro pages
  induction pages with
  | nil => intro cur st st'; rfl
  | cons p rest ih =>
    intro cur st st'
    by_cases hp : p.has_more
    · rw [paginateLoop_cons_true f p rest cur st hp,
        paginateLoop_cons_true g p rest cur st' hp]
      rw [show ∀ x : σ × List (Option String), ∀ y, (x.1, cur :: y).2 = cur :: y from
        fun x y => rfl]
      rw [show ∀ x : σ' × List (Option String), ∀ y, (x.1, cur :: y).2 = cur :: y from
        fun x y => rfl]
      rw [ih p.next_cursor (f p.results st) (g p.results st')]
    · have hp' : p.has_more = false := by simpa using hp
      rw [paginateLoop_cons_false f p rest cur st hp',
        paginateLoop_cons_false g p rest cur st' hp']

/-- C2.  For a response sequence of N pages in which the last page
reports `has_more = false` and every earlier page reports
`has_more = true` (`properPages`), both paginated reconciliation runs —
the icon sync and the page-count backfill — perform exactly N fetch
calls, and the cursors those fetches use are precisely: no cursor for the
first fetch, then the `next_cursor` of each page except the last.  In
particular no fetch is issued with the final page's cursor after that
page. -/
theorem c2_pagination_termination (patchOk : Nat → Bool) (force : Bool)
    (fetchOL : String → OLResult) (tpPatchOk : Nat → Bool)
    (ipages : List (RemotePage IconPageRec)) (tpages : List (RemotePage BookRec))
    (hi : properPages ipages = true) (ht : properPages tpages = true) :
    ((updateBookIcons patchOk ipages).2 =
        none :: ipages.dropLast.map (fun p => p.next_cursor) ∧
      (updateBookIcons patchOk ipages).2.length = ipages.length) ∧
    ((updateBookTotalPages force fetchOL tpPatchOk tpages).2 =
        none :: tpages.dropLast.map (fun p => p.next_cursor) ∧
      (updateBookTotalPages force fetchOL tpPatchOk tpages).2.length = tpages.length) := by
  have hi1 : 1 ≤ ipages.length :=
    Nat.one_le_iff_ne_zero.mpr (by
      simpa [List.length_eq_zero] using properPages_ne_nil hi)
  have ht1 : 1 ≤ tpages.length :=
    Nat.one_le_iff_ne_zero.mpr (by
      simpa [List.length_eq_zero] using properPages_ne_nil ht)
  constructor
  · have hc := paginateLoop_cursors
      (fun rs (st : (IconCounts × List IconEvent)) =>
        let page := processIconList patchOk rs
        (⟨st.1.totalUpdated + page.1.totalUpdated,
          st.1.totalSkipped + page.1.totalSkipped⟩, st.2 ++ page.2))
      ipages hi none (⟨0, 0⟩, [])
    refine ⟨hc, ?_⟩
    rw [show (updateBookIcons patchOk ipages).2 =
      none :: ipages.dropLast.map (fun p => p.next_cursor) from hc]
    simp [List.length_dropLast]
    omega
  · have hc := paginateLoop_cursors
      (fun rs (st : (List BookRec × TPCounters × List TPEvent)) =>
        let page := processTPList force fetchOL tpPatchOk rs
        (st.1 ++ page.1, addTPCounters st.2.1 page.2.1, st.2.2 ++ page.2.2))
      tpages ht none ([], ⟨0, 0, 0, 0, 0⟩, [])
    refine ⟨hc, ?_⟩
    rw [show (updateBookTotalPages force fetchOL tpPatchOk tpages).2 =
      none :: tpages.dropLast.map (fun p => p.next_cursor) from hc]
    simp [List.length_dropLast]
    omega

/-- Witness for C2: a concrete two-page icon sequence and a concrete
one-page backfill sequence. -/
theorem c2_witness :
    (properPages
        [(⟨[], true, some "c1"⟩ : RemotePage IconPageRec), ⟨[], false, some "c2"⟩] = true ∧
      properPages [(⟨[], false, none⟩ : RemotePage BookRec)] = true) ∧
    (((updateBookIcons (fun _ => true)
        [⟨[], true, some "c1"⟩, ⟨[], false, some "c2"⟩]).2 =
        none :: ([(⟨[], true, some "c1"⟩ : RemotePage IconPageRec),
          ⟨[], false, some "c2"⟩].dropLast.map (fun p => p.next_cursor)) ∧
      (updateBookIcons (fun _ => true)
        [⟨[], true, some "c1"⟩, ⟨[], false, some "c2"⟩]).2.length =
        ([(⟨[], true, some "c1"⟩ : RemotePage IconPageRec), ⟨[], false, some "c2"⟩]).length) ∧
    ((updateBookTotalPages false (fun _ => OLResult.noData) (fun _ => true)
        [⟨[], false, none⟩]).2 =
        none :: ([(⟨[], false, none⟩ : RemotePage BookRec)].dropLast.map
          (fun p => p.next_cursor)) ∧
      (updateBookTotalPages false (fun _ => OLResult.noData) (fun _ => true)
        [⟨[], false, none⟩]).2.length =
        ([(⟨[], false, none⟩ : RemotePage BookRec)]).length)) :=
  ⟨⟨by decide, by decide⟩,
   c2_pagination_termination (fun _ => true) false (fun _ => OLResult.noData)
     (fun _ => true)
     [⟨[], true, some "c1"⟩, ⟨[], false, some "c2"⟩] [⟨[], false, none⟩]
     (by decide) (by decide)⟩

theorem tpStep_stable (f : String → OLResult) (p : Nat → Bool) (r : BookRec) :
    ((tpStep false f p r).2.1 ≠ TPOutcome.forceUpdated) ∧
    ((tpStep false f p r).2.1 = TPOutcome.updated →
      tpStep false f p (tpStep false f p r).1 =
        ((tpStep false f p r).1, TPOutcome.skipped, [])) ∧
    ((tpStep false f p r).2.1 ≠ TPOutcome.updated → (tpStep false f p r).1 = r) := by
  obtain ⟨id, title, isbn, tp⟩ := r
  cases isbn with
  | none => simp [tpStep]
  | some s =>
    by_cases hs : s = ""
    · simp [tpStep, hs]
    · by_cases htp : jsTruthyNum tp
      · simp [tpStep, hs, htp]
      · have htp' : jsTruthyNum tp = false := by simpa using htp
        cases hf : f s with
        | fetchError => simp [tpStep, hs, htp', hf]
        | noData => simp [tpStep, hs, htp', hf]
        | found np =>
          cases np with
          | none => simp [tpStep, hs, htp', hf]
          | some n =>
            by_cases hn : n = 0
            · simp [tpStep, hs, htp', hf, hn]
            · have hn' : jsTruthyNum (some n) = true := by simp [jsTruthyNum, hn]
              by_cases hp : p id
              · simp [tpStep, hs, htp', hf, hn, hn', hp]
              · simp [tpStep, hs, htp', hf, hn, hp]

theorem tpStep_patch_mem (force : Bool) (f : String → OLResult) (p : Nat → Bool)
    (r : BookRec) (id : Nat) (n : Int)
    (h : TPEvent.patchPages id n ∈ (tpStep force f p r).2.2) :
    id = r.id ∧ ((tpStep force f p r).2.1 = TPOutcome.updated ∨
      (tpStep force f p r).2.1 = TPOutcome.forceUpdated ∨ p r.id = false) := by
  obtain ⟨rid, title, isbn, tp⟩ := r
  cases isbn with
  | none => simp [tpStep] at h
  | some s =>
    by_cases hs : s = ""
    · simp [tpStep, hs] at h
    · by_cases hcond : jsTruthyNum tp && !force
      · simp [tpStep, hs, hcond] at h
      · cases hf : f s with
        | fetchError => simp [tpStep, hs, hcond, hf] at h
        | noData => simp [tpStep, hs, hcond, hf] at h
        | found np =>
          cases np with
          | none => simp [tpStep, hs, hcond, hf] at h
          | some m =>
            by_cases hn : m = 0
            · simp [tpStep, hs, hcond, hf, hn] at h
            · have hcond' : (jsTruthyNum tp && !force) = false := by simpa using hcond
              by_cases hp : p rid
              · by_cases hforce : (jsTruthyNum tp && force) = true
                · simp [tpStep, hs, hcond', hf, hn, hp, hforce] at h ⊢
                  exact h.1
                · have hforce' : (jsTruthyNum tp && force) = false := by simpa using hforce
                  simp [tpStep, hs, hcond', hf, hn, hp, hforce'] at h ⊢
                  exact h.1
              · have hp' : p rid = false := by simpa using hp
                simp [tpStep, hs, hcond', hf, hn, hp'] at h ⊢
                exact h.1

theorem tpStep_second (f : String → OLResult) (p : Nat → Bool) (r : BookRec) :
    ((tpStep false f p (tpStep false f p r).1).2.1 ≠ TPOutcome.updated ∧
      (tpStep false f p (tpStep false f p r).1).2.1 ≠ TPOutcome.forceUpdated) ∧
    (∀ id n,
      TPEvent.patchPages id n ∈ (tpStep false f p (tpStep false f p r).1).2.2 →
        p id = false) := by
  obtain ⟨hforce, hupd, hstay⟩ := tpStep_stable f p r
  by_cases h : (tpStep false f p r).2.1 = TPOutcome.updated
  · rw [hupd h]
    refine ⟨⟨by simp, by simp⟩, ?_⟩
    intro id n hm
    simp at hm
  · rw [hstay h]
    refine ⟨⟨h, hforce⟩, ?_⟩
    intro id n hm
    obtain ⟨hid, hcase⟩ := tpStep_patch_mem false f p r id n hm
    rcases hcase with hu | hfu | hpf
    · exact absurd hu h
    · exact absurd hfu hforce
    · rw [hid]; exact hpf

/-- Sum of the five backfill counters: each record increments exactly one
of them, so a run's counters total the number of records. -/
def tpTotal (c : TPCounters) : Nat :=
  c.totalUpdated + c.totalForceUpdated + c.totalSkipped +
    c.totalMissingISBN + c.totalFailedFetch

theorem tpTotal_apply (o : TPOutcome) (c : TPCounters) :
    tpTotal (applyTPOutcome o c) = tpTotal c + 1 := by
  cases o <;> simp [applyTPOutcome, tpTotal] <;> omega

theorem processTPList_total (force : Bool) (f : String → OLResult) (p : Nat → Bool)
    (rs : List BookRec) :
    tpTotal (processTPList force f p rs).2.1 = rs.length := by
  induction rs with
  | nil => simp [processTPList, tpTotal]
  | cons r rest ih => simp [processTPList, tpTotal_apply, ih]

theorem processTPList_length (force : Bool) (f : String → OLResult) (p : Nat → Bool)
    (rs : List BookRec) :
    (processTPList force f p rs).1.length = rs.length := by
  induction rs with
  | nil => simp [processTPList]
  | cons r rest ih => simp [processTPList, ih]

theorem applyTPOutcome_updated (o : TPOutcome) (c : TPCounters)
    (h : o ≠ TPOutcome.updated) :
    (applyTPOutcome o c).totalUpdated = c.totalUpdated := by
  cases o with
  | updated => exact absurd rfl h
  | _ => simp [applyTPOutcome]

theorem applyTPOutcome_forceUpdated (o : TPOutcome) (c : TPCounters)
    (h : o ≠ TPOutcome.forceUpdated) :
    (applyTPOutcome o c).totalForceUpdated = c.totalForceUpdated := by
  cases o with
  | forceUpdated => exact absurd rfl h
  | _ => simp [applyTPOutcome]

theorem processTPList_second (f : String → OLResult) (p : Nat → Bool)
    (recs : List BookRec) :
    (processTPList false f p (processTPList false f p recs).1).2.1.totalUpdated = 0 ∧
    (processTPList false f p (processTPList false f p recs).1).2.1.totalForceUpdated = 0 ∧
    (∀ id n,
      TPEvent.patchPages id n ∈
        (processTPList false f p (processTPList false f p recs).1).2.2 →
      p id = false) := by
  induction recs with
  | nil => simp [processTPList]
  | cons r rs ih =>
    have hstep := tpStep_second f p r
    simp only [processTPList] at ih ⊢
    refine ⟨?_, ?_, ?_⟩
    · rw [applyTPOutcome_updated _ _ hstep.1.1]
      exact ih.1
    · rw [applyTPOutcome_forceUpdated _ _ hstep.1.2]
      exact ih.2.1
    · intro id n hm
      rw [List.mem_append] at hm
      rcases hm with hm | hm
      · exact hstep.2 id n hm
      · exact ih.2.2 id n hm

/-- C3.  Running the page-count backfill twice without the force flag
over the same unmodified external state (the same lookup and patch
oracles; the record list as left by the first run) yields zero updates on
the second run: the second run's `updated` and `force updated` counters
are zero, its three remaining counters (missing ISBN, skipped, fetch
failed) account for every record, and a patch request can occur in the
second run only for a record whose patch deterministically fails
(`p id = false`) — never for a record updated in the first run. -/
theorem c3_backfill_idempotent (f : String → OLResult) (p : Nat → Bool)
    (recs : List BookRec) :
    (processTPList false f p (processTPList false f p recs).1).2.1.totalUpdated = 0 ∧
    (processTPList false f p (processTPList false f p recs).1).2.1.totalForceUpdated = 0 ∧
    (processTPList false f p (processTPList false f p recs).1).2.1.totalMissingISBN +
      (processTPList false f p (processTPList false f p recs).1).2.1.totalSkipped +
      (processTPList false f p (processTPList false f p recs).1).2.1.totalFailedFetch =
      recs.length ∧
    (∀ id n,
      TPEvent.patchPages id n ∈
        (processTPList false f p (processTPList false f p recs).1).2.2 →
      p id = false) := by
  obtain ⟨h1, h2, h3⟩ := processTPList_second f p recs
  refine ⟨h1, h2, ?_, h3⟩
  have htot := processTPList_total false f p (processTPList false f p recs).1
  rw [processTPList_length false f p recs] at htot
  unfold tpTotal at htot
  omega

/-- Witness for C3: one record with an ISBN and no page count, a lookup
oracle that always returns 200 pages, and a patch oracle that always
succeeds; the second run counts the record as skipped. -/
theorem c3_witness :
    (processTPList false (fun _ => OLResult.found (some 200)) (fun _ => true)
      (processTPList false (fun _ => OLResult.found (some 200)) (fun _ => true)
        [⟨1, some "T", some "A", none⟩]).1).2.1.totalUpdated = 0 ∧
    (processTPList false (fun _ => OLResult.found (some 200)) (fun _ => true)
      (processTPList false (fun _ => OLResult.found (some 200)) (fun _ => true)
        [⟨1, some "T", some "A", none⟩]).1).2.1.totalForceUpdated = 0 ∧
    (processTPList false (fun _ => OLResult.found (some 200)) (fun _ => true)
      (processTPList false (fun _ => OLResult.found (some 200)) (fun _ => true)
        [⟨1, some "T", some "A", none⟩]).1).2.1.totalMissingISBN +
      (processTPList false (fun _ => OLResult.found (some 200)) (fun _ => true)
        (processTPList false (fun _ => OLResult.found (some 200)) (fun _ => true)
          [⟨1, some "T", some "A", none⟩]).1).2.1.totalSkipped +
      (processTPList false (fun _ => OLResult.found (some 200)) (fun _ => true)
        (processTPList false (fun _ => OLResult.found (some 200)) (fun _ => true)
          [⟨1, some "T", some "A", none⟩]).1).2.1.totalFailedFetch =
      ([⟨1, some "T", some "A", none⟩] : List BookRec).length ∧
    (∀ id n,
      TPEvent.patchPages id n ∈
        (processTPList false (fun _ => OLResult.found (some 200)) (fun _ => true)
          (processTPList false (fun _ => OLResult.found (some 200)) (fun _ => true)
            [⟨1, some "T", some "A", none⟩]).1).2.2 →
      (fun _ : Nat => true) id = false) :=
  c3_backfill_idempotent (fun _ => OLResult.found (some 200)) (fun _ => true)
    [⟨1, some "T", some "A", none⟩]

/-- C7.  A record with a (truthy) ISBN and an existing (truthy) page
count, processed with the force flag set: the backfill always re-fetches
(the first event of its processing is the OpenLibrary lookup), never
counts it as skipped, and when the fetch yields a usable page count and
the patch goes through, it overwrites the page-count field and counts the
record as force updated.  ("Existing page count" is the source's truthy
test: the field present and nonzero.) -/
theorem c7_force_mode (f : String → OLResult) (p : Nat → Bool) (r : BookRec)
    (s : String) (m : Int)
    (hisbn : r.isbn = some s) (hs : s ≠ "")
    (hpages : r.totalPages = some m) (hm : m ≠ 0) :
    ((tpStep true f p r).2.2.head? = some (TPEvent.fetchOL s)) ∧
    ((tpStep true f p r).2.1 ≠ TPOutcome.skipped) ∧
    (∀ n : Int, f s = OLResult.found (some n) → n ≠ 0 → p r.id = true →
      tpStep true f p r =
        ({ r with totalPages := some n }, TPOutcome.forceUpdated,
         [TPEvent.fetchOL s, TPEvent.patchPages r.id n, TPEvent.sleep 500])) := by
  have hm' : jsTruthyNum (some m) = true := by simp [jsTruthyNum, hm]
  have h12 : ((tpStep true f p r).2.2.head? = some (TPEvent.fetchOL s)) ∧
      ((tpStep true f p r).2.1 ≠ TPOutcome.skipped) := by
    cases hf : f s with
    | fetchError => simp [tpStep, hisbn, hs, hpages, hm', hf]
    | noData => simp [tpStep, hisbn, hs, hpages, hm', hf]
    | found np =>
      cases np with
      | none => simp [tpStep, hisbn, hs, hpages, hm', hf]
      | some n =>
        by_cases hn : n = 0
        · simp [tpStep, hisbn, hs, hpages, hm', hf, hn]
        · by_cases hp : p r.id
          · simp [tpStep, hisbn, hs, hpages, hm', hf, hn, hp]
          · have hp' : p r.id = false := by simpa using hp
            simp [tpStep, hisbn, hs, hpages, hm', hf, hn, hp']
  refine ⟨h12.1, h12.2, ?_⟩
  intro n hf hn hp
  simp [tpStep, hisbn, hs, hpages, hm', hf, hn, hp]

/-- Witness for C7: a record with ISBN `X` and 100 existing pages, an
oracle returning 321 pages, a patch that succeeds. -/
theorem c7_witness :
    ((⟨2, some "T", some "X", some 100⟩ : BookRec).isbn = some "X" ∧ "X" ≠ "" ∧
      (⟨2, some "T", some "X", some 100⟩ : BookRec).totalPages = some 100 ∧
      (100 : Int) ≠ 0) ∧
    ((tpStep true (fun _ => OLResult.found (some 321)) (fun _ => true)
        ⟨2, some "T", some "X", some 100⟩).2.2.head? = some (TPEvent.fetchOL "X") ∧
      (tpStep true (fun _ => OLResult.found (some 321)) (fun _ => true)
        ⟨2, some "T", some "X", some 100⟩).2.1 ≠ TPOutcome.skipped ∧
      (∀ n : Int, (fun _ : String => OLResult.found (some 321)) "X"
          = OLResult.found (some n) → n ≠ 0 →
        (fun _ : Nat => true) (⟨2, some "T", some "X", some 100⟩ : BookRec).id = true →
        tpStep true (fun _ => OLResult.found (some 321)) (fun _ => true)
          ⟨2, some "T", some "X", some 100⟩ =
          ({ (⟨2, some "T", some "X", some 100⟩ : BookRec) with totalPages := some n },
           TPOutcome.forceUpdated,
           [TPEvent.fetchOL "X", TPEvent.patchPages 2 n, TPEvent.sleep 500]))) :=
  ⟨⟨rfl, by decide, rfl, by decide⟩,
   c7_force_mode (fun _ => OLResult.found (some 321)) (fun _ => true)
     ⟨2, some "T", some "X", some 100⟩ "X" 100 rfl (by decide) rfl (by decide)⟩

theorem fetchBookInfo_of_none (oracle : String → LookupOutcome) (c : String)
    (h : (fetchBookInfo oracle c).1 = none) : fetchBookInfo oracle c = (none, [c]) := by
  cases ho : oracle c <;> simp [fetchBookInfo, ho] at h ⊢

/-- C8.  `fetchBookInfo`: on a response entry carrying a title it returns
a book record with that title and the queried identifier, whose authors
are the empty sequence when the response has no author list and whose
page count is `null` when the response has none, and it appends nothing
to the failed-identifiers accumulator; on a transport failure, a
malformed response, or a missing key for the queried identifier it
returns `null` and appends the identifier to the accumulator.  The append
never deduplicates: processing the same failing identifier twice in one
file run records it twice. -/
theorem c8_fetchBookInfo (oracle : String → LookupOutcome) (isbn : String)
    (acc : List String) :
    (∀ (d : OLBookData) (t : String),
        oracle isbn = LookupOutcome.found d → d.title = some t →
        ∃ rec : BookInfo,
          (fetchBookInfo oracle isbn).1 = some rec ∧
          (fetchBookInfo oracle isbn).2 = [] ∧
          rec.title = some t ∧ rec.isbn = isbn ∧
          (d.authors = none → rec.authors = []) ∧
          (d.number_of_pages = none → rec.numberOfPages = none)) ∧
    (oracle isbn = LookupOutcome.transportError →
      fetchBookInfo oracle isbn = (none, [isbn])) ∧
    (oracle isbn = LookupOutcome.missingKey →
      fetchBookInfo oracle isbn = (none, [isbn])) ∧
    (oracle isbn = LookupOutcome.transportError ∨
        oracle isbn = LookupOutcome.missingKey →
      acc ++ (fetchBookInfo oracle isbn).2 = acc ++ [isbn]) ∧
    (∀ raw : String, jsTrim raw ≠ "" →
      oracle (cleanISBN raw) = LookupOutcome.transportError →
      (processISBNFile oracle [raw, raw]).2 = [cleanISBN raw, cleanISBN raw]) := by
  refine ⟨?_, ?_, ?_, ?_, ?_⟩
  · intro d t hd ht
    refine ⟨⟨d.title, d.authors.getD [], jsNumOrNull d.number_of_pages, isbn⟩, ?_⟩
    simp [fetchBookInfo, hd, ht]
    constructor
    · intro ha; simp [ha]
    · intro hn; simp [jsNumOrNull, hn]
  · intro h; simp [fetchBookInfo, h]
  · intro h; simp [fetchBookInfo, h]
  · rintro (h | h) <;> simp [fetchBookInfo, h]
  · intro raw hraw h
    simp [processISBNFile, processISBNItem, fetchBookInfo, h, hraw]

/-- Witness for C8: a found entry with a title and no authors or pages,
and a failing identifier processed twice. -/
theorem c8_witness :
    ((fun s => if s = "ok" then LookupOutcome.found ⟨some "T", none, none⟩
        else LookupOutcome.transportError) "ok"
          = LookupOutcome.found ⟨some "T", none, none⟩ ∧
      (⟨some "T", none, none⟩ : OLBookData).title = some "T" ∧
      (jsTrim "bad" ≠ "" ∧
        (fun s => if s = "ok" then LookupOutcome.found ⟨some "T", none, none⟩
          else LookupOutcome.transportError) (cleanISBN "bad")
            = LookupOutcome.transportError)) ∧
    ((∃ rec : BookInfo,
        (fetchBookInfo
          (fun s => if s = "ok" then LookupOutcome.found ⟨some "T", none, none⟩
            else LookupOutcome.transportError) "ok").1 = some rec ∧
        (fetchBookInfo
          (fun s => if s = "ok" then LookupOutcome.found ⟨some "T", none, none⟩
            else LookupOutcome.transportError) "ok").2 = [] ∧
        rec.title = some "T" ∧ rec.isbn = "ok" ∧
        ((⟨some "T", none, none⟩ : OLBookData).authors = none → rec.authors = []) ∧
        ((⟨some "T", none, none⟩ : OLBookData).number_of_pages = none →
          rec.numberOfPages = none)) ∧
      (processISBNFile
        (fun s => if s = "ok" then LookupOutcome.found ⟨some "T", none, none⟩
          else LookupOutcome.transportError) ["bad", "bad"]).2 =
        [cleanISBN "bad", cleanISBN "bad"]) := by
  refine ⟨⟨by decide, rfl, by decide, by decide⟩, ?_, ?_⟩
  · exact (c8_fetchBookInfo
      (fun s => if s = "ok" then LookupOutcome.found ⟨some "T", none, none⟩
        else LookupOutcome.transportError) "ok" []).1
      ⟨some "T", none, none⟩ "T" (by decide) rfl
  · exact (c8_fetchBookInfo
      (fun s => if s = "ok" then LookupOutcome.found ⟨some "T", none, none⟩
        else LookupOutcome.transportError) "ok" []).2.2.2.2
      "bad" (by decide) (by decide)

theorem collectBooks_skip (i i13 t : Option Nat) (l : String) (hl : jsTrim l ≠ "")
    (hrow : rowToBook i i13 t (parseCSVLine l) = none) :
    ∀ pre post : List String,
      collectBooks i i13 t (pre ++ l :: post) = collectBooks i i13 t (pre ++ post) := by
  intro pre
  induction pre with
  | nil =>
    intro post
    simp [collectBooks, hl, hrow]
  | cons x xs ih =>
    intro post
    by_cases hx : jsTrim x = ""
    · simp [collectBooks, hx, ih]
    · cases hr : rowToBook i i13 t (parseCSVLine x) <;>
        simp [collectBooks, hx, hr, ih]

/-- C4.  Spreadsheet-export mode: a data row joins the processed set iff
one of its two identifier cells yields a value, so a row with neither
contributes nothing anywhere — removing it leaves the whole run
(successes, failure log, events) unchanged.  For a processed row the
cleaned ISBN13 is always the first lookup tried; the ISBN is tried
exactly when the ISBN13 lookup failed (or ISBN13 is absent) and an ISBN
is present; and when every attempted lookup fails, the last-attempted
identifier is in the row's failure-log contribution. -/
theorem c4_goodreads_lookup_policy (oracle : String → LookupOutcome) :
    (∀ (i i13 t : Option Nat) (values : List String),
        rowToBook i i13 t values = none ↔
          (extractId values i13 = none ∧ extractId values i = none)) ∧
    (∀ (i i13 t : Option Nat) (l : String) (pre post : List String),
        jsTrim l ≠ "" → rowToBook i i13 t (parseCSVLine l) = none →
        processBooks oracle (collectBooks i i13 t (pre ++ l :: post)) =
          processBooks oracle (collectBooks i i13 t (pre ++ post))) ∧
    (∀ (b : GRBook) (s13 : String), b.isbn13 = some s13 →
        (lookupsOf (processGRBook oracle b).events).head? = some (cleanISBN s13) ∧
        ((fetchBookInfo oracle (cleanISBN s13)).1.isSome = true →
          lookupsOf (processGRBook oracle b).events = [cleanISBN s13]) ∧
        ((fetchBookInfo oracle (cleanISBN s13)).1 = none →
          ∀ si : String, b.isbn = some si →
          lookupsOf (processGRBook oracle b).events =
            [cleanISBN s13, cleanISBN si])) ∧
    (∀ (b : GRBook) (si : String), b.isbn13 = none → b.isbn = some si →
        lookupsOf (processGRBook oracle b).events = [cleanISBN si]) ∧
    (∀ b : GRBook, (b.isbn13.isSome || b.isbn.isSome) = true →
        (processGRBook oracle b).info = none →
        ∀ x : String,
          (lookupsOf (processGRBook oracle b).events).getLast? = some x →
          x ∈ (processGRBook oracle b).failures) := by
  refine ⟨?_, ?_, ?_, ?_, ?_⟩
  · intro i i13 t values
    unfold rowToBook
    cases h13 : extractId values i13 <;> cases hi : extractId values i <;> simp
  · intro i i13 t l pre post hl hrow
    rw [collectBooks_skip i i13 t l hl hrow pre post]
  · intro b s13 h13
    cases hf13 : oracle (cleanISBN s13) with
    | transportError =>
      have hfb : fetchBookInfo oracle (cleanISBN s13) = (none, [cleanISBN s13]) := by
        simp [fetchBookInfo, hf13]
      refine ⟨?_, ?_, ?_⟩
      · cases hbi : b.isbn with
        | none => simp [processGRBook, h13, hfb, hbi, lookupsOf]
        | some si =>
          cases hfi : fetchBookInfo oracle (cleanISBN si) with
          | mk o2 f2 =>
            cases o2 <;> simp [processGRBook, h13, hfb, hbi, hfi, lookupsOf]
      · intro hsome; rw [hfb] at hsome; simp at hsome
      · intro _ si hsi
        cases hfi : fetchBookInfo oracle (cleanISBN si) with
        | mk o2 f2 =>
          cases o2 <;> simp [processGRBook, h13, hfb, hsi, hfi, lookupsOf]
    | missingKey =>
      have hfb : fetchBookInfo oracle (cleanISBN s13) = (none, [cleanISBN s13]) := by
        simp [fetchBookInfo, hf13]
      refine ⟨?_, ?_, ?_⟩
      · cases hbi : b.isbn with
        | none => simp [processGRBook, h13, hfb, hbi, lookupsOf]
        | some si =>
          cases hfi : fetchBookInfo oracle (cleanISBN si) with
          | mk o2 f2 =>
            cases o2 <;> simp [processGRBook, h13, hfb, hbi, hfi, lookupsOf]
      · intro hsome; rw [hfb] at hsome; simp at hsome
      · intro _ si hsi
        cases hfi : fetchBookInfo oracle (cleanISBN si) with
        | mk o2 f2 =>
          cases o2 <;> simp [processGRBook, h13, hfb, hsi, hfi, lookupsOf]
    | found d =>
      have hfb : fetchBookInfo oracle (cleanISBN s13) =
          (some ⟨d.title, d.authors.getD [], jsNumOrNull d.number_of_pages,
            cleanISBN s13⟩, []) := by
        simp [fetchBookInfo, hf13]
      refine ⟨?_, ?_, ?_⟩
      · simp [processGRBook, h13, hfb, lookupsOf]
      · intro _; simp [processGRBook, h13, hfb, lookupsOf]
      · intro hnone; rw [hfb] at hnone; simp at hnone
  · intro b si h13 hsi
    cases hfi : fetchBookInfo oracle (cleanISBN si) with
    | mk o2 f2 => cases o2 <;> simp [processGRBook, h13, hsi, hfi, lookupsOf]
  · intro b hid hnone x hlast
    cases h13 : b.isbn13 with
    | some s13 =>
      cases hf13 : oracle (cleanISBN s13) with
      | found d =>
        have hfb : fetchBookInfo oracle (cleanISBN s13) =
            (some ⟨d.title, d.authors.getD [], jsNumOrNull d.number_of_pages,
              cleanISBN s13⟩, []) := by
          simp [fetchBookInfo, hf13]
        rw [show (processGRBook oracle b).info =
            some ⟨d.title, d.authors.getD [], jsNumOrNull d.number_of_pages,
              cleanISBN s13⟩ from by simp [processGRBook, h13, hfb]] at hnone
        exact absurd hnone (by simp)
      | transportError =>
        have hfb : fetchBookInfo oracle (cleanISBN s13) = (none, [cleanISBN s13]) := by
          simp [fetchBookInfo, hf13]
        cases hbi : b.isbn with
        | none =>
          simp [processGRBook, h13, hfb, hbi, lookupsOf] at hlast ⊢
          simp [hlast]
        | some si =>
          cases hfi : oracle (cleanISBN si) with
          | found d2 =>
            have hfb2 : fetchBookInfo oracle (cleanISBN si) =
                (some ⟨d2.title, d2.authors.getD [], jsNumOrNull d2.number_of_pages,
                  cleanISBN si⟩, []) := by
              simp [fetchBookInfo, hfi]
            rw [show (processGRBook oracle b).info =
                some ⟨d2.title, d2.authors.getD [], jsNumOrNull d2.number_of_pages,
                  cleanISBN si⟩ from by simp [processGRBook, h13, hfb, hbi, hfb2]]
              at hnone
            exact absurd hnone (by simp)
          | transportError =>
            have hfb2 : fetchBookInfo oracle (cleanISBN si) = (none, [cleanISBN si]) := by
              simp [fetchBookInfo, hfi]
            simp [processGRBook, h13, hfb, hbi, hfb2, lookupsOf] at hlast ⊢
            simp [hlast]
          | missingKey =>
            have hfb2 : fetchBookInfo oracle (cleanISBN si) = (none, [cleanISBN si]) := by
              simp [fetchBookInfo, hfi]
            simp [processGRBook, h13, hfb, hbi, hfb2, lookupsOf] at hlast ⊢
            simp [hlast]
      | missingKey =>
        have hfb : fetchBookInfo oracle (cleanISBN s13) = (none, [cleanISBN s13]) := by
          simp [fetchBookInfo, hf13]
        cases hbi : b.isbn with
        | none =>
          simp [processGRBook, h13, hfb, hbi, lookupsOf] at hlast ⊢
          simp [hlast]
        | some si =>
          cases hfi : oracle (cleanISBN si) with
          | found d2 =>
            have hfb2 : fetchBookInfo oracle (cleanISBN si) =
                (some ⟨d2.title, d2.authors.getD [], jsNumOrNull d2.number_of_pages,
                  cleanISBN si⟩, []) := by
              simp [fetchBookInfo, hfi]
            rw [show (processGRBook oracle b).info =
                some ⟨d2.title, d2.authors.getD [], jsNumOrNull d2.number_of_pages,
                  cleanISBN si⟩ from by simp [processGRBook, h13, hfb, hbi, hfb2]]
              at hnone
            exact absurd hnone (by simp)
          | transportError =>
            have hfb2 : fetchBookInfo oracle (cleanISBN si) = (none, [cleanISBN si]) := by
              simp [fetchBookInfo, hfi]
            simp [processGRBook, h13, hfb, hbi, hfb2, lookupsOf] at hlast ⊢
            simp [hlast]
          | missingKey =>
            have hfb2 : fetchBookInfo oracle (cleanISBN si) = (none, [cleanISBN si]) := by
              simp [fetchBookInfo, hfi]
            simp [processGRBook, h13, hfb, hbi, hfb2, lookupsOf] at hlast ⊢
            simp [hlast]
    | none =>
      cases hbi : b.isbn with
      | none => rw [h13, hbi] at hid; simp at hid
      | some si =>
        cases hfi : oracle (cleanISBN si) with
        | found d2 =>
          have hfb2 : fetchBookInfo oracle (cleanISBN si) =
              (some ⟨d2.title, d2.authors.getD [], jsNumOrNull d2.number_of_pages,
                cleanISBN si⟩, []) := by
            simp [fetchBookInfo, hfi]
          rw [show (processGRBook oracle b).info =
              some ⟨d2.title, d2.authors.getD [], jsNumOrNull d2.number_of_pages,
                cleanISBN si⟩ from by simp [processGRBook, h13, hbi, hfb2]] at hnone
          exact absurd hnone (by simp)
        | transportError =>
          have hfb2 : fetchBookInfo oracle (cleanISBN si) = (none, [cleanISBN si]) := by
            simp [fetchBookInfo, hfi]
          simp [processGRBook, h13, hbi, hfb2, lookupsOf] at hlast ⊢
          simp [hlast]
        | missingKey =>
          have hfb2 : fetchBookInfo oracle (cleanISBN si) = (none, [cleanISBN si]) := by
            simp [fetchBookInfo, hfi]
          simp [processGRBook, h13, hbi, hfb2, lookupsOf] at hlast ⊢
          simp [hlast]

/-- Witness for C4 at a concrete book with both identifiers under an
always-failing oracle: both lookups are tried, ISBN13 first, and the
last-attempted identifier is in the failure contribution. -/
theorem c4_witness :
    ((⟨"B", some "1-1", some "978-1"⟩ : GRBook).isbn13 = some "978-1" ∧
      (fetchBookInfo (fun _ => LookupOutcome.transportError)
        (cleanISBN "978-1")).1 = none ∧
      (⟨"B", some "1-1", some "978-1"⟩ : GRBook).isbn = some "1-1" ∧
      ((⟨"B", some "1-1", some "978-1"⟩ : GRBook).isbn13.isSome ||
        (⟨"B", some "1-1", some "978-1"⟩ : GRBook).isbn.isSome) = true ∧
      (processGRBook (fun _ => LookupOutcome.transportError)
        ⟨"B", some "1-1", some "978-1"⟩).info = none ∧
      (lookupsOf (processGRBook (fun _ => LookupOutcome.transportError)
        ⟨"B", some "1-1", some "978-1"⟩).events).getLast? = some (cleanISBN "1-1")) ∧
    ((lookupsOf (processGRBook (fun _ => LookupOutcome.transportError)
        ⟨"B", some "1-1", some "978-1"⟩).events).head? = some (cleanISBN "978-1") ∧
      lookupsOf (processGRBook (fun _ => LookupOutcome.transportError)
        ⟨"B", some "1-1", some "978-1"⟩).events =
        [cleanISBN "978-1", cleanISBN "1-1"] ∧
      cleanISBN "1-1" ∈ (processGRBook (fun _ => LookupOutcome.transportError)
        ⟨"B", some "1-1", some "978-1"⟩).failures) := by
  refine ⟨⟨rfl, by decide, rfl, by decide, by decide, by decide⟩, ?_, ?_, ?_⟩
  · exact ((c4_goodreads_lookup_policy (fun _ => LookupOutcome.transportError)).2.2.1
      ⟨"B", some "1-1", some "978-1"⟩ "978-1" rfl).1
  · exact ((c4_goodreads_lookup_policy (fun _ => LookupOutcome.transportError)).2.2.1
      ⟨"B", some "1-1", some "978-1"⟩ "978-1" rfl).2.2 (by decide) "1-1" rfl
  · exact (c4_goodreads_lookup_policy (fun _ => LookupOutcome.transportError)).2.2.2.2
      ⟨"B", some "1-1", some "978-1"⟩ (by decide) (by decide)
      (cleanISBN "1-1") (by decide)

theorem applyTPOutcome_add (o : TPOutcome) (a b : TPCounters) :
    applyTPOutcome o (addTPCounters a b) = addTPCounters (applyTPOutcome o a) b := by
  cases o <;> simp [applyTPOutcome, addTPCounters] <;> omega

theorem processIconList_append (patchOk : Nat → Bool) (xs ys : List IconPageRec) :
    processIconList patchOk (xs ++ ys) =
      (⟨(processIconList patchOk xs).1.totalUpdated +
          (processIconList patchOk ys).1.totalUpdated,
        (processIconList patchOk xs).1.totalSkipped +
          (processIconList patchOk ys).1.totalSkipped⟩,
       (processIconList patchOk xs).2 ++ (processIconList patchOk ys).2) := by
  induction xs with
  | nil => simp [processIconList]
  | cons r rs ih =>
    rw [show (r :: rs) ++ ys = r :: (rs ++ ys) from rfl]
    simp only [processIconList, ih]
    refine Prod.ext ?_ ?_
    · cases (iconStep patchOk r).1 <;>
        simp [applyIconOutcome, IconCounts.mk.injEq] <;> omega
    · simp [List.append_assoc]

theorem processTPList_append (force : Bool) (f : String → OLResult)
    (p : Nat → Bool) (xs ys : List BookRec) :
    processTPList force f p (xs ++ ys) =
      ((processTPList force f p xs).1 ++ (processTPList force f p ys).1,
       addTPCounters (processTPList force f p xs).2.1
         (processTPList force f p ys).2.1,
       (processTPList force f p xs).2.2 ++ (processTPList force f p ys).2.2) := by
  induction xs with
  | nil => simp [processTPList, addTPCounters]
  | cons r rs ih =>
    rw [show (r :: rs) ++ ys = r :: (rs ++ ys) from rfl]
    simp only [processTPList, ih]
    refine Prod.ext ?_ (Prod.ext ?_ ?_)
    · simp
    · simp [applyTPOutcome_add]
    · simp [List.append_assoc]

/-- Counterexample to C5.  One page, one record with status `To Read` and
no icon, whose patch request throws: the icon-sync loop catches the
exception and completes, but the record is counted nowhere — both of the
script's counters (its only counters) end at zero even though the trace
shows the patch was attempted.  The icon-sync script has no failure
counter, so the patch exception is not "counted as a failure" as the
claim states. -/
theorem c5_counterexample :
    (processIconList (fun _ => false) [⟨1, some "T", some "To Read", none⟩]).1 =
      (⟨0, 0⟩ : IconCounts) ∧
    (processIconList (fun _ => false) [⟨1, some "T", some "To Read", none⟩]).2 =
      [IconEvent.patchIcon 1 "📘", IconEvent.sleep 250] :=
  ⟨by decide, by decide⟩

/-- C5 as amended.  A per-record exception during the patch request is
caught and processing continues with the remaining records of the page
and with subsequent pages; in the page-count backfill it is counted as a
failure (the failed-fetch counter) and leaves the record unchanged, while
in the icon-sync script — which has no failure counter — it is counted in
no counter.  Concretely: (1) a backfill record whose patch fails is
returned unchanged with outcome `failedFetch` and a completed trace;
(2) an icon record whose patch fails gets outcome `patchFailed`, which
leaves both counters unchanged; (3)/(4) list processing is compositional,
so the records after a failing one are processed exactly as they would be
alone; (5) the pagination's fetch sequence does not depend on the page
processing at all, so no per-record exception can abort it. -/
theorem c5_patch_exception_policy :
    (∀ (force : Bool) (f : String → OLResult) (p : Nat → Bool) (r : BookRec)
        (s : String) (n : Int),
      r.isbn = some s → s ≠ "" → (jsTruthyNum r.totalPages && !force) = false →
      f s = OLResult.found (some n) → n ≠ 0 → p r.id = false →
      tpStep force f p r =
        (r, TPOutcome.failedFetch,
         [TPEvent.fetchOL s, TPEvent.patchPages r.id n, TPEvent.sleep 500])) ∧
    (∀ (p : Nat → Bool) (r : IconPageRec) (s g : String),
      r.status = some s → s ≠ "" → decideIcon s r = IconDecision.update g →
      p r.id = false →
      iconStep p r = (IconOutcome.patchFailed,
        [IconEvent.patchIcon r.id g, IconEvent.sleep 250]) ∧
      ∀ c : IconCounts, applyIconOutcome IconOutcome.patchFailed c = c) ∧
    (∀ (patchOk : Nat → Bool) (xs ys : List IconPageRec),
      (processIconList patchOk (xs ++ ys)).2 =
        (processIconList patchOk xs).2 ++ (processIconList patchOk ys).2 ∧
      (processIconList patchOk (xs ++ ys)).1.totalUpdated =
        (processIconList patchOk xs).1.totalUpdated +
          (processIconList patchOk ys).1.totalUpdated) ∧
    (∀ (force : Bool) (f : String → OLResult) (p : Nat → Bool)
        (xs ys : List BookRec),
      (processTPList force f p (xs ++ ys)).2.2 =
        (processTPList force f p xs).2.2 ++ (processTPList force f p ys).2.2 ∧
      (processTPList force f p (xs ++ ys)).1 =
        (processTPList force f p xs).1 ++ (processTPList force f p ys).1) ∧
    (∀ (σ σ' : Type) (g : List BookRec → σ → σ) (g' : List BookRec → σ' → σ')
        (pages : List (RemotePage BookRec)) (cur : Option String) (st : σ) (st' : σ'),
      (paginateLoop g pages cur st).2 = (paginateLoop g' pages cur st').2) := by
  refine ⟨?_, ?_, ?_, ?_, ?_⟩
  · intro force f p r s n hisbn hs hcond hf hn hp
    simp [tpStep, hisbn, hs, hcond, hf, hn, hp]
  · intro p r s g hst hs hdec hp
    refine ⟨?_, fun c => rfl⟩
    unfold iconStep
    rw [hst]
    simp only [hs, if_false]
    rw [hdec, hp]
    simp
  · intro patchOk xs ys
    rw [processIconList_append patchOk xs ys]
    exact ⟨rfl, rfl⟩
  · intro force f p xs ys
    rw [processTPList_append force f p xs ys]
    exact ⟨rfl, rfl⟩
  · intro σ σ' g g' pages cur st st'
    exact paginateLoop_cursors_congr g g' pages cur st st'

/-- Witness for the amended C5 at concrete failing-patch records in both
scripts. -/
theorem c5_witness :
    ((⟨3, some "T", some "A", none⟩ : BookRec).isbn = some "A" ∧ "A" ≠ "" ∧
      (jsTruthyNum (⟨3, some "T", some "A", none⟩ : BookRec).totalPages && !false)
        = false ∧
      (fun _ : String => OLResult.found (some 7)) "A" = OLResult.found (some 7) ∧
      (7 : Int) ≠ 0 ∧
      (fun _ : Nat => false) (⟨3, some "T", some "A", none⟩ : BookRec).id = false ∧
      (⟨1, some "T", some "To Read", none⟩ : IconPageRec).status = some "To Read" ∧
      "To Read" ≠ "" ∧
      decideIcon "To Read" ⟨1, some "T", some "To Read", none⟩
        = IconDecision.update "📘" ∧
      (fun _ : Nat => false) (⟨1, some "T", some "To Read", none⟩ : IconPageRec).id
        = false) ∧
    (tpStep false (fun _ => OLResult.found (some 7)) (fun _ => false)
        ⟨3, some "T", some "A", none⟩ =
      (⟨3, some "T", some "A", none⟩, TPOutcome.failedFetch,
       [TPEvent.fetchOL "A", TPEvent.patchPages 3 7, TPEvent.sleep 500])) ∧
    (iconStep (fun _ => false) ⟨1, some "T", some "To Read", none⟩ =
        (IconOutcome.patchFailed,
         [IconEvent.patchIcon 1 "📘", IconEvent.sleep 250]) ∧
      ∀ c : IconCounts, applyIconOutcome IconOutcome.patchFailed c = c) :=
  ⟨⟨rfl, by decide, by decide, rfl, by decide, rfl, rfl, by decide, by decide, rfl⟩,
   c5_patch_exception_policy.1 false (fun _ => OLResult.found (some 7))
     (fun _ => false) ⟨3, some "T", some "A", none⟩ "A" 7 rfl (by decide)
     (by decide) rfl (by decide) rfl,
   c5_patch_exception_policy.2.1 (fun _ => false)
     ⟨1, some "T", some "To Read", none⟩ "To Read" "📘" rfl (by decide)
     (by decide) rfl⟩

/-- Counterexample to C6.  Two backfill records with ISBNs and no page
count, under a lookup oracle that resolves with no data: the run's trace
is two consecutive OpenLibrary lookups with no sleep between them — the
`continue` taken when the lookup yields no data jumps past the 500ms
delay, so the loop does not suspend after that record's network
interaction before processing the next record. -/
theorem c6_counterexample :
    (processTPList false (fun _ => OLResult.noData) (fun _ => true)
      [⟨1, some "T", some "A", none⟩, ⟨2, some "U", some "B", none⟩]).2.2 =
      [TPEvent.fetchOL "A", TPEvent.fetchOL "B"] := by decide

/-- C6 as amended.  The pacing delays are: 250ms after every icon patch
attempt (successful or caught), nothing for an icon skip or a status-less
record (which perform no network interaction); in the page-count
backfill, 500ms after a caught lookup rejection and after every patch
attempt (successful or caught), but a record whose lookup resolves with
no data or with no usable page count proceeds to the next record with no
delay after its lookup; in the import orchestrator's per-identifier
loops (file mode and spreadsheet mode), 1000ms at the end of every
iteration. -/
theorem c6_pacing_policy :
    (∀ (p : Nat → Bool) (r : IconPageRec) (s : String),
      r.status = some s → s ≠ "" →
      ((decideIcon s r = IconDecision.skip → (iconStep p r).2 = []) ∧
       (∀ g : String, decideIcon s r = IconDecision.update g →
         (iconStep p r).2 = [IconEvent.patchIcon r.id g, IconEvent.sleep 250]))) ∧
    (∀ (force : Bool) (f : String → OLResult) (p : Nat → Bool) (r : BookRec)
        (s : String),
      r.isbn = some s → s ≠ "" → (jsTruthyNum r.totalPages && !force) = false →
      ((f s = OLResult.fetchError →
         (tpStep force f p r).2.2 = [TPEvent.fetchOL s, TPEvent.sleep 500]) ∧
       (f s = OLResult.noData →
         (tpStep force f p r).2.2 = [TPEvent.fetchOL s]) ∧
       (f s = OLResult.found none →
         (tpStep force f p r).2.2 = [TPEvent.fetchOL s]) ∧
       (f s = OLResult.found (some 0) →
         (tpStep force f p r).2.2 = [TPEvent.fetchOL s]) ∧
       (∀ n : Int, f s = OLResult.found (some n) → n ≠ 0 →
         (tpStep force f p r).2.2 =
           [TPEvent.fetchOL s, TPEvent.patchPages r.id n, TPEvent.sleep 500]))) ∧
    (∀ (oracle : String → LookupOutcome) (raw : String),
      (processISBNItem oracle raw).1.getLast? = some (ImpEvent.sleep 1000)) ∧
    (∀ (oracle : String → LookupOutcome) (b : GRBook),
      (processGRBook oracle b).events.getLast? = some (ImpEvent.sleep 1000)) := by
  refine ⟨?_, ?_, ?_, ?_⟩
  · intro p r s hst hs
    constructor
    · intro hdec
      unfold iconStep
      rw [hst]
      simp only [hs, if_false]
      rw [hdec]
    · intro g hdec
      unfold iconStep
      rw [hst]
      simp only [hs, if_false]
      rw [hdec]
      by_cases hp : p r.id <;> simp [hp]
  · intro force f p r s hisbn hs hcond
    refine ⟨?_, ?_, ?_, ?_, ?_⟩
    · intro hf; simp [tpStep, hisbn, hs, hcond, hf]
    · intro hf; simp [tpStep, hisbn, hs, hcond, hf]
    · intro hf; simp [tpStep, hisbn, hs, hcond, hf]
    · intro hf; simp [tpStep, hisbn, hs, hcond, hf]
    · intro n hf hn
      by_cases hp : p r.id
      · simp [tpStep, hisbn, hs, hcond, hf, hn, hp]
      · have hp' : p r.id = false := by simpa using hp
        simp [tpStep, hisbn, hs, hcond, hf, hn, hp']
  · intro oracle raw
    cases hfb : fetchBookInfo oracle (cleanISBN raw) with
    | mk o fs => cases o <;> simp [processISBNItem, hfb]
  · intro oracle b
    cases h13 : b.isbn13 with
    | some s13 =>
      cases hfb : fetchBookInfo oracle (cleanISBN s13) with
      | mk o1 f1 =>
        cases o1 with
        | some info => simp [processGRBook, h13, hfb]
        | none =>
          cases hbi : b.isbn with
          | none => simp [processGRBook, h13, hfb, hbi]
          | some si =>
            cases hfb2 : fetchBookInfo oracle (cleanISBN si) with
            | mk o2 f2 => cases o2 <;> simp [processGRBook, h13, hfb, hbi, hfb2]
    | none =>
      cases hbi : b.isbn with
      | none => simp [processGRBook, h13, hbi]
      | some si =>
        cases hfb2 : fetchBookInfo oracle (cleanISBN si) with
        | mk o2 f2 => cases o2 <;> simp [processGRBook, h13, hbi, hfb2]

/-- Witness for the amended C6 at concrete records: an icon update, a
backfill record whose lookup resolves with no data (no delay), and one
whose lookup yields 7 pages (patch then delay). -/
theorem c6_witness :
    ((⟨1, some "T", some "To Read", none⟩ : IconPageRec).status = some "To Read" ∧
      "To Read" ≠ "" ∧
      (⟨4, some "T", some "A", none⟩ : BookRec).isbn = some "A" ∧ "A" ≠ "" ∧
      (jsTruthyNum (⟨4, some "T", some "A", none⟩ : BookRec).totalPages && !false)
        = false ∧
      (fun _ : String => OLResult.noData) "A" = OLResult.noData ∧
      decideIcon "To Read" ⟨1, some "T", some "To Read", none⟩
        = IconDecision.update "📘") ∧
    ((iconStep (fun _ => true) ⟨1, some "T", some "To Read", none⟩).2 =
        [IconEvent.patchIcon 1 "📘", IconEvent.sleep 250] ∧
      (tpStep false (fun _ => OLResult.noData) (fun _ => true)
        ⟨4, some "T", some "A", none⟩).2.2 = [TPEvent.fetchOL "A"] ∧
      (processISBNItem (fun _ => LookupOutcome.transportError) "z").1.getLast? =
        some (ImpEvent.sleep 1000) ∧
      (processGRBook (fun _ => LookupOutcome.transportError)
        ⟨"B", none, some "9"⟩).events.getLast? = some (ImpEvent.sleep 1000)) :=
  ⟨⟨rfl, by decide, rfl, by decide, by decide, rfl, by decide⟩,
   ((c6_pacing_policy.1 (fun _ => true) ⟨1, some "T", some "To Read", none⟩
      "To Read" rfl (by decide)).2 "📘" (by decide)),
   ((c6_pacing_policy.2.1 false (fun _ => OLResult.noData) (fun _ => true)
      ⟨4, some "T", some "A", none⟩ "A" rfl (by decide) (by decide)).2.1 rfl),
   (c6_pacing_policy.2.2.1 (fun _ => LookupOutcome.transportError) "z"),
   (c6_pacing_policy.2.2.2 (fun _ => LookupOutcome.transportError)
      ⟨"B", none, some "9"⟩)⟩

end ReadingTracker
